import Mathlib

/-
Shallow embedding of the tool-calling orchestration code of the repository
(examples: L3-chatbot-example-with-pip/L3.openai.py, L5-mcp-client/mcp_chatbot.py,
L6-multi-client-server/mcp_chatbot.py, alstom-from-claude/ai-azure-client.py and
alstom-from-claude/mcp-server.py).

External boundaries (Azure OpenAI completion requests, MCP stdio transports,
the json Python library, the arxiv/database backed tool bodies) are modelled
as explicit oracle parameters: LLM responses are a script consumed one response
per loop iteration, tool handlers are functions that either return a value or
fail (a Python exception), and json.loads is a parameter that returns the
parsed mapping or fails.  Everything that the repository code itself does —
branching, message construction, appending, normalization, registry lookups —
is translated directly from the Python source.
-/

set_option autoImplicit false

namespace Spec2Proof

/-- Conversation roles used by every example (user / assistant / tool). -/
inductive Role where
  | user
  | assistant
  | tool
deriving DecidableEq, Repr

/-- A tool-call request as carried by an OpenAI assistant message:
`tc.id`, `tc.function.name`, `tc.function.arguments`.  The `arguments`
field is the raw serialized payload; the OpenAI client may hand back
`None`, which L3 guards against with `tc.function.arguments or "\x7b\x7d"`. -/
structure ToolCall where
  id : String
  name : String
  arguments : Option String
deriving DecidableEq, Repr

/-- One transcript entry, the shape of the dictionaries the examples append to
their `messages` / `conversation_history` lists.  `content` is `Option` because
the alstom client appends `assistant_message.content` unchanged (it may be
`None`); fields that a given role does not use are `[]` / `none`. -/
structure Message where
  role : Role
  content : Option String
  tool_calls : List ToolCall
  tool_call_id : Option String
deriving DecidableEq, Repr

/-- The `\x7b'role': 'user', 'content': query\x7d` dictionary. -/
def userMessage (q : String) : Message :=
  { role := .user, content := some q, tool_calls := [], tool_call_id := none }

/-- The tool-role message appended after executing one tool call:
`\x7b"role": "tool", "tool_call_id": tc.id, "content": result\x7d`. -/
def toolMessage (id result : String) : Message :=
  { role := .tool, content := some result, tool_calls := [], tool_call_id := some id }

/-- One LLM completion response as the orchestrators see it:
`resp.choices[0].message`, with optional text content and a (possibly empty)
list of tool calls.  Python truthiness of `msg.tool_calls` is modelled by
emptiness of the list. -/
structure LLMResponse where
  content : Option String
  tool_calls : List ToolCall
deriving DecidableEq, Repr

/-- Python exceptions that the embedded code can raise. -/
inductive PyErr where
  | keyError (k : String)
  | typeError
  | jsonDecodeError (payload : String)
  | valueError (msg : String)
  | toolError (msg : String)
deriving DecidableEq, Repr

/-- Python values a local tool handler may return (the types that
`execute_tool` in L3.openai.py discriminates on). -/
inductive PyValue where
  | vNone
  | vStr (s : String)
  | vInt (n : Int)
  | vList (xs : List PyValue)
  | vDict (kvs : List (String × PyValue))

/-- A parsed argument mapping (the result of `json.loads` on a tool call's
arguments payload). -/
abbrev ArgsMap := List (String × PyValue)

/-- Apostrophe character, used to spell out string literals of the source. -/
def apos : String := String.singleton (Char.ofNat 39)

/-- The fixed placeholder of L3.openai.py line 168:
"The operation completed but didn/t return any results." (with apostrophe). -/
def placeholderText : String :=
  "The operation completed but didn" ++ apos ++ "t return any results."

/-- Helper for `pyJoin`: a Python value is a `str` or not. -/
def asStr : PyValue → Option String
  | .vStr s => some s
  | _ => none

/-- Checks that every element of the list is a Python `str`, returning the
underlying strings. -/
def allStrs : List PyValue → Option (List String)
  | [] => some []
  | x :: xs =>
    match asStr x, allStrs xs with
    | some s, some ss => some (s :: ss)
    | _, _ => none

/-- Model of Python `sep.join(xs)` on a list of values: succeeds with the
interleaved concatenation when every element is a `str`, raises `TypeError`
otherwise (CPython: "sequence item 0: expected str instance"). -/
def pyJoin (sep : String) (xs : List PyValue) : Except PyErr String :=
  match allStrs xs with
  | some ss => .ok (String.intercalate sep ss)
  | none => .error .typeError

/-- Two-space indentation block of `n` spaces for the JSON pretty printer. -/
def spaces (n : Nat) : String := String.mk (List.replicate n ' ')

/-- Escape of one character inside a JSON string literal (the escapes relevant
to this development: backslash, double quote, newline). -/
def jsonEscapeChar (c : Char) : String :=
  if c = '"' then "\\\""
  else if c = '\\' then "\\\\"
  else if c = '\n' then "\\n"
  else String.singleton c

/-- Escape of a JSON string body. -/
def jsonEscape (s : String) : String :=
  String.join (s.toList.map jsonEscapeChar)

/-- A JSON string literal. -/
def jsonQuote (s : String) : String := "\"" ++ jsonEscape s ++ "\""

mutual

/-- Model of Python `json.dumps(v, indent=2)` at current indentation `cur`. -/
def dumpV (cur : Nat) : PyValue → String
  | .vNone => "null"
  | .vStr s => jsonQuote s
  | .vInt n => toString n
  | .vList [] => "[]"
  | .vList (x :: xs) =>
      "[\n" ++ String.intercalate ",\n" (dumpArrItems (cur + 2) (x :: xs)) ++
        "\n" ++ spaces cur ++ "]"
  | .vDict [] => "\x7b\x7d"
  | .vDict (kv :: kvs) =>
      "\x7b\n" ++ String.intercalate ",\n" (dumpObjItems (cur + 2) (kv :: kvs)) ++
        "\n" ++ spaces cur ++ "\x7d"

/-- Lines of a pretty-printed JSON array body. -/
def dumpArrItems (cur : Nat) : List PyValue → List String
  | [] => []
  | x :: xs => (spaces cur ++ dumpV cur x) :: dumpArrItems cur xs

/-- Lines of a pretty-printed JSON object body. -/
def dumpObjItems (cur : Nat) : List (String × PyValue) → List String
  | [] => []
  | (k, v) :: kvs =>
      (spaces cur ++ jsonQuote k ++ ": " ++ dumpV cur v) :: dumpObjItems cur kvs

end

/-- Model of Python `str()` on the values that reach the final `else` branch of
`execute_tool` (everything that is not `None`, not a `list`, not a `dict`).
The list/dict branches are unreachable from `execute_tool`; they are given the
JSON form to keep the function total. -/
def pyStr : PyValue → String
  | .vNone => "None"
  | .vStr s => s
  | .vInt n => toString n
  | .vList xs => dumpV 0 (.vList xs)
  | .vDict kvs => dumpV 0 (.vDict kvs)

/-- The result-normalization chain of `execute_tool` (L3.openai.py lines
167-180): `None` → fixed placeholder; `list` → `", ".join(result)`;
`dict` → `json.dumps(result, indent=2)`; anything else → `str(result)`.
The join raises `TypeError` when an element is not a `str`, and that
exception propagates (there is no try/except in `execute_tool`). -/
def normalize_result : PyValue → Except PyErr String
  | .vNone => .ok placeholderText
  | .vList xs => pyJoin ", " xs
  | .vDict kvs => .ok (dumpV 0 (.vDict kvs))
  | .vStr s => .ok (pyStr (.vStr s))
  | .vInt n => .ok (pyStr (.vInt n))

/-- A registry of local tool handlers: the rôle of `mapping_tool_function`.
A handler takes the parsed argument mapping and either returns a value or
raises. -/
abbrev Registry := String → Option (ArgsMap → Except PyErr PyValue)

/-- L3.openai.py lines 157-160: the dictionary mapping tool names to the two
local handler functions (whose arxiv/filesystem bodies are oracle
parameters here). -/
def mapping_tool_function (search_papers extract_info : ArgsMap → Except PyErr PyValue) :
    Registry :=
  fun n =>
    if n = "search_papers" then some search_papers
    else if n = "extract_info" then some extract_info
    else none

/-- L3.openai.py lines 163-180, `execute_tool(tool_name, tool_args)`:
`mapping_tool_function[tool_name](**tool_args)` — a `KeyError` for an
unregistered name, a handler exception, or a `TypeError` from the join all
propagate (the function has no try/except) — followed by the normalization
chain. -/
def execute_tool (reg : Registry) (tool_name : String) (tool_args : ArgsMap) :
    Except PyErr String :=
  match reg tool_name with
  | none => .error (.keyError tool_name)
  | some f =>
    match f tool_args with
    | .error e => .error e
    | .ok r => normalize_result r

/-- L3.openai.py line 240: `tc.function.arguments or "\x7b\x7d"` — Python `or`
substitutes the falsy values `None` and `""` by the literal `"\x7b\x7d"`. -/
def bracesLit : String := "\x7b\x7d"

/-- The payload actually handed to `json.loads` for one tool call in
L3's `process_query`. -/
def argsPayload : Option String → String
  | none => bracesLit
  | some s => if s = "" then bracesLit else s

/-- A model of the `json.loads` library boundary: a parse function returning
the argument mapping, or `none` when the payload is not valid JSON (Python
raises `json.JSONDecodeError`). -/
abbrev JsonParse := String → Option ArgsMap

/-- Concrete instance of the `json.loads` boundary used by witnesses: it
parses the empty-object literal and rejects everything else (faithful to
`json.loads` on the concrete payloads appearing in this development). -/
def modelJsonLoads : JsonParse :=
  fun s => if s = bracesLit then some [] else none

/-- The assistant message L3's `process_query` appends when the response
requests tools (lines 222-235): `content` is `msg.content or ""` and the
tool calls are re-serialized in emission order. -/
def assistantToolMsg (content : Option String) (tcs : List ToolCall) : Message :=
  { role := .assistant, content := some (content.getD ""), tool_calls := tcs,
    tool_call_id := none }

/-- The per-turn tool loop of L3's `process_query` (lines 238-248): for each
tool call in emission order, `json.loads(tc.function.arguments or "\x7b\x7d")`
(a parse failure raises and aborts the batch), then `execute_tool` (whose
exceptions also propagate), then append the `tool`-role message carrying the
request id and the normalized text. -/
def runToolCalls (parse : JsonParse) (reg : Registry) :
    List ToolCall → List Message → Except PyErr (List Message)
  | [], msgs => .ok msgs
  | tc :: rest, msgs =>
    match parse (argsPayload tc.arguments) with
    | none => .error (.jsonDecodeError (argsPayload tc.arguments))
    | some args =>
      match execute_tool reg tc.name args with
      | .error e => .error e
      | .ok result => runToolCalls parse reg rest (msgs ++ [toolMessage tc.id result])

/-- Outcome of one `process_query` run in the embedded model. -/
inductive RunOutcome where
  | answer (content : Option String) (transcript : List Message)
  | raised (e : PyErr)
  | outOfScript
deriving DecidableEq, Repr

/-- The `while True` loop of L3's `process_query` (lines 207-255), with the
LLM modelled as a script of responses consumed one per iteration:
a response with tool calls appends the assistant message, runs the tool batch
and loops; a response without tool calls returns its content — without
appending it to the (per-query, local) transcript.  `outOfScript` marks the
model artifact of an exhausted script (the Python loop would issue another
completion request there). -/
def processQueryLoop (parse : JsonParse) (reg : Registry) :
    List LLMResponse → List Message → RunOutcome
  | [], _ => .outOfScript
  | r :: rest, msgs =>
    match r.tool_calls with
    | [] => .answer r.content msgs
    | tc :: tcs =>
      match runToolCalls parse reg (tc :: tcs) (msgs ++ [assistantToolMsg r.content (tc :: tcs)]) with
      | .error e => .raised e
      | .ok msgs2 => processQueryLoop parse reg rest msgs2

/-- L3.openai.py lines 205-255, `process_query(query)`: the transcript starts
as the single user message (no memory across queries) and the loop runs. -/
def process_query (parse : JsonParse) (reg : Registry)
    (script : List LLMResponse) (query : String) : RunOutcome :=
  processQueryLoop parse reg script [userMessage query]

/- ===================== alstom-from-claude/ai-azure-client.py ============ -/

/-- One item of an MCP `call_tool` result's `content` list: the client only
distinguishes items bearing a `.text` attribute. -/
inductive ContentItem where
  | text (t : String)
  | other
deriving DecidableEq, Repr

/-- The result object of `mcp_session.call_tool`. -/
structure CallToolResult where
  content : List ContentItem
deriving DecidableEq, Repr

/-- The text extraction of `_execute_tool`:
`[item.text for item in result.content if hasattr(item, "text")]`. -/
def extractTexts : List ContentItem → List String
  | [] => []
  | .text t :: rest => t :: extractTexts rest
  | .other :: rest => extractTexts rest

/-- The MCP call boundary: the remote call either returns a result or raises
(the exception's `str(e)` is the carried message). -/
abbrev McpCall := String → ArgsMap → Except String CallToolResult

/-- ai-azure-client.py lines 102-116, `TrainProductionAgent._execute_tool`:
invokes the MCP tool inside try/except; a non-empty content list yields the
newline join of its text items, an empty one the fixed no-content string, and
ANY exception is caught and converted to the descriptive
"Error executing tool ...: ..." text.  The function is total: it never
propagates a failure. -/
def agent_execute_tool (call : McpCall) (tool_name : String) (tool_args : ArgsMap) :
    String :=
  match call tool_name tool_args with
  | .error e => "Error executing tool " ++ tool_name ++ ": " ++ e
  | .ok r =>
    match r.content with
    | [] => "Tool executed but returned no content"
    | _ => String.intercalate "\n" (extractTexts r.content)

/-- The per-tool-call loop of `chat` (lines 184-199): parse the raw arguments
with `json.loads` (a `None` payload raises `TypeError`, an unparseable one
`json.JSONDecodeError`; either propagates, leaving the history as mutated so
far), execute via `_execute_tool` (total), append the tool message.  Returns
the mutated history together with the exception, if one escaped. -/
def agentToolLoop (parse : JsonParse) (call : McpCall) :
    List ToolCall → List Message → List Message × Option PyErr
  | [], hist => (hist, none)
  | tc :: rest, hist =>
    match tc.arguments with
    | none => (hist, some .typeError)
    | some s =>
      match parse s with
      | none => (hist, some (.jsonDecodeError s))
      | some args =>
        agentToolLoop parse call rest
          (hist ++ [toolMessage tc.id (agent_execute_tool call tc.name args)])

/-- The assistant message the alstom client appends (content kept as-is,
possibly `None`). -/
def agentAssistantMsg (content : Option String) (tcs : List ToolCall) : Message :=
  { role := .assistant, content := content, tool_calls := tcs, tool_call_id := none }

/-- ai-azure-client.py lines 118-223, `TrainProductionAgent.chat`:
`conversation_history` is an object field, so every append persists even when
an exception later escapes the method.  The first completion request and the
follow-up request are oracle parameters (`resp1`, `resp2`); a failing request
is an `Except.error`.  If the first response carries tool calls the method
appends the assistant tool-call message, runs every tool call, issues the
follow-up request WITHOUT the tools parameter, appends its content and
returns it; otherwise it appends and returns the direct content.  The result
is the final history paired with the outcome (returned content or escaped
exception). -/
def agentChat (parse : JsonParse) (call : McpCall)
    (resp1 : Except PyErr LLMResponse) (resp2 : Except PyErr (Option String))
    (hist : List Message) (user_message : String) :
    List Message × Except PyErr (Option String) :=
  let hist1 := hist ++ [userMessage user_message]
  match resp1 with
  | .error e => (hist1, .error e)
  | .ok m =>
    match m.tool_calls with
    | [] => (hist1 ++ [agentAssistantMsg m.content []], .ok m.content)
    | tc :: tcs =>
      let hist2 := hist1 ++ [agentAssistantMsg m.content (tc :: tcs)]
      match agentToolLoop parse call (tc :: tcs) hist2 with
      | (hist3, some e) => (hist3, .error e)
      | (hist3, none) =>
        match resp2 with
        | .error e => (hist3, .error e)
        | .ok c => (hist3 ++ [agentAssistantMsg c []], .ok c)

/- ===================== alstom-from-claude/mcp-server.py ================= -/

/-- mcp-server.py lines 205-220, the `call_tool` dispatcher: an if/elif chain
over the six registered tool names (their database-backed bodies are an
oracle parameter `impl`), and `raise ValueError(f"Unknown tool: ...")` for
any other name. -/
def server_call_tool (impl : String → ArgsMap → List ContentItem)
    (name : String) (arguments : ArgsMap) : Except String (List ContentItem) :=
  if name = "get_project_overview" then .ok (impl name arguments)
  else if name = "get_project_phases" then .ok (impl name arguments)
  else if name = "search_similar_projects" then .ok (impl name arguments)
  else if name = "get_phase_statistics" then .ok (impl name arguments)
  else if name = "build_project_skeleton" then .ok (impl name arguments)
  else if name = "get_commitments_summary" then .ok (impl name arguments)
  else .error ("Unknown tool: " ++ name)

/-- The six tool names registered by the train-production server. -/
def serverToolNames : List String :=
  ["get_project_overview", "get_project_phases", "search_similar_projects",
   "get_phase_statistics", "build_project_skeleton", "get_commitments_summary"]

/- ===================== L6-multi-client-server/mcp_chatbot.py ============ -/

/-- A live `ClientSession` handle, identified abstractly. -/
abbrev Session := Nat

/-- The name / description / inputSchema triple of one tool listed by an MCP
server (the schema is carried opaquely as text). -/
structure ToolInfo where
  name : String
  description : String
  inputSchema : String
deriving DecidableEq, Repr

/-- Lookup in the Python dict `self.tool_to_session` (string keys). -/
def dictGet : List (String × Session) → String → Option Session
  | [], _ => none
  | (k, v) :: d, n => if k = n then some v else dictGet d n

/-- Assignment `self.tool_to_session[tool.name] = session` on the Python dict:
replaces the value of an existing binding in place, appends a new binding
otherwise. -/
def dictSet : List (String × Session) → String → Session → List (String × Session)
  | [], k, v => [(k, v)]
  | (k1, v1) :: d, k, v =>
    if k1 = k then (k1, v) :: d else (k1, v1) :: dictSet d k v

/-- The mutable state of `MCP_ChatBot` (L6): the list of open sessions, the
`tool_to_session` routing dict, and the `available_tools` list sent to the
LLM (each entry wraps one `ToolInfo` in the OpenAI function format). -/
structure BotState where
  sessions : List Session
  tool_to_session : List (String × Session)
  available_tools : List ToolInfo
deriving DecidableEq, Repr

/-- What one attempted server connection can do, as observed by
`connect_to_server`: fail before the session is entered (transport or
handshake error), fail after the session is entered but before/while listing
tools, or succeed with the session and its listed tools.  (All three paths
are inside the method's `try`.) -/
inductive ConnectOutcome where
  | failEarly (err : String)
  | failAfterSession (s : Session) (err : String)
  | success (s : Session) (tools : List ToolInfo)
deriving DecidableEq, Repr

/-- L6 mcp_chatbot.py lines 33-63, `connect_to_server`: the whole body is
wrapped in try/except, so a failure only prints and leaves the loop running.
On success every listed tool is registered by plain dict assignment into
`tool_to_session` (NO duplicate check: an existing binding is silently
overwritten) and appended to `available_tools`. -/
def connect_to_server (o : ConnectOutcome) (st : BotState) : BotState :=
  match o with
  | .failEarly _ => st
  | .failAfterSession s _ => { st with sessions := st.sessions ++ [s] }
  | .success s tools =>
    let st1 : BotState := { st with sessions := st.sessions ++ [s] }
    tools.foldl
      (fun acc t =>
        { acc with
          tool_to_session := dictSet acc.tool_to_session t.name s,
          available_tools := acc.available_tools ++ [t] })
      st1

/-- L6 mcp_chatbot.py lines 65-77, `connect_to_servers`: iterate over the
configured servers, calling `connect_to_server` for each (each call absorbs
its own failures). -/
def connect_to_servers (outcomes : List ConnectOutcome) (st : BotState) : BotState :=
  outcomes.foldl (fun acc o => connect_to_server o acc) st

/-- The per-turn tool loop of L6's `process_query` (lines 96-117): for each
tool call, `json.loads(tool_args)` (a `None` argument raises `TypeError`, a
bad payload `json.JSONDecodeError`), then `self.tool_to_session[tool_name]`
(`KeyError` when the name is not routed), then the remote call (whose failure
propagates — no try/except here), then append the `tool` message whose
content is `str(result.content)` (the `str()` boundary is the `render`
parameter) and whose `tool_call_id` is the request id. -/
def runToolCallsL6 (parse : JsonParse) (routing : List (String × Session))
    (call : Session → String → ArgsMap → Except PyErr CallToolResult)
    (render : List ContentItem → String) :
    List ToolCall → List Message → Except PyErr (List Message)
  | [], msgs => .ok msgs
  | tc :: rest, msgs =>
    match tc.arguments with
    | none => .error .typeError
    | some s =>
      match parse s with
      | none => .error (.jsonDecodeError s)
      | some args =>
        match dictGet routing tc.name with
        | none => .error (.keyError tc.name)
        | some sess =>
          match call sess tc.name args with
          | .error e => .error e
          | .ok r =>
            runToolCallsL6 parse routing call render rest
              (msgs ++ [toolMessage tc.id (render r.content)])

/- ===================== predicates and concrete instances ================ -/

/-- The tool-role messages `ms` answer the requests `tcs` one-to-one, in
order, each `tool_call_id` equal to the id of its request. -/
def answersInOrder : List ToolCall → List Message → Prop
  | [], [] => True
  | tc :: tcs, m :: ms =>
      m.role = .tool ∧ m.tool_call_id = some tc.id ∧ answersInOrder tcs ms
  | _, _ => False

/-- No assistant message of the list carries the content `c`. -/
def noAssistantContent (c : String) : List Message → Prop
  | [] => True
  | m :: ms => ¬(m.role = .assistant ∧ m.content = some c) ∧ noAssistantContent c ms

/-- The spec-side description of the normalization chain, restricted to the
cases the code actually realizes (see the C4 correction): `None` yields the
placeholder, a list of strings the comma join, a list containing a non-string
a `TypeError`, a dict the pretty JSON form, a string itself, an int its
decimal text. -/
def normalizeSpec : Prop :=
  normalize_result .vNone = .ok placeholderText ∧
  (∀ ss : List String,
      normalize_result (.vList (ss.map PyValue.vStr)) = .ok (String.intercalate ", " ss)) ∧
  (∀ xs : List PyValue, (∃ x ∈ xs, asStr x = none) →
      normalize_result (.vList xs) = .error .typeError) ∧
  (∀ kvs : List (String × PyValue),
      normalize_result (.vDict kvs) = .ok (dumpV 0 (.vDict kvs))) ∧
  (∀ s : String, normalize_result (.vStr s) = .ok s) ∧
  (∀ n : Int, normalize_result (.vInt n) = .ok (toString n))

/-- Whether an executor outcome is a returned text (as opposed to a
propagated exception). -/
def isOkResult : Except PyErr String → Bool
  | .ok _ => true
  | .error _ => false

/-- A registry holding exactly one tool. -/
def singleReg (name : String) (f : ArgsMap → Except PyErr PyValue) : Registry :=
  fun n => if n = name then some f else none

/-- A handler that returns `None` (used where only the lookup matters). -/
def stubHandler : ArgsMap → Except PyErr PyValue := fun _ => .ok .vNone

/-- A handler that raises (`ValueError("boom")`). -/
def raisingHandler : ArgsMap → Except PyErr PyValue := fun _ => .error (.valueError "boom")

/-- A handler returning the string "r". -/
def okStrHandler : ArgsMap → Except PyErr PyValue := fun _ => .ok (.vStr "r")

/-- Demo registry: one tool named "t" returning the string "r". -/
def demoReg : Registry := singleReg "t" okStrHandler

/-- A well-formed tool call against the demo registry. -/
def tcDemo : ToolCall := { id := "call1", name := "t", arguments := some bracesLit }

/-- A second well-formed tool call against the demo registry. -/
def tcDemo2 : ToolCall := { id := "call2", name := "t", arguments := some bracesLit }

/-- A tool call whose raw arguments are not valid JSON. -/
def badTc : ToolCall := { id := "call1", name := "t", arguments := some "oops" }

/-- An LLM response requesting one well-formed tool call. -/
def toolRespDemo : LLMResponse := { content := none, tool_calls := [tcDemo] }

/-- A final LLM response with no tool calls. -/
def finalRespDemo : LLMResponse := { content := some "done", tool_calls := [] }

/-- An LLM response whose single tool call has malformed arguments. -/
def badResp : LLMResponse := { content := none, tool_calls := [badTc] }

/-- A script with `n` tool-requesting responses followed by the final one. -/
def scriptDemo (n : Nat) : List LLMResponse :=
  List.replicate n toolRespDemo ++ [finalRespDemo]

/-- The two messages one demo tool round appends. -/
def roundBlock : List Message :=
  [assistantToolMsg none [tcDemo], toolMessage "call1" "r"]

/-- The messages appended by `n` demo tool rounds. -/
def roundsList : Nat → List Message
  | 0 => []
  | n + 1 => roundBlock ++ roundsList n

/-- An MCP call oracle returning an empty content list. -/
def callStub : McpCall := fun _ _ => .ok { content := [] }

/-- An MCP call oracle that raises with message "boom". -/
def callBoom : McpCall := fun _ _ => .error "boom"

/-- A server-side implementation oracle returning no content items. -/
def implStub : String → ArgsMap → List ContentItem := fun _ _ => []

/-- An initial, empty chatbot state (L6). -/
def st0 : BotState := { sessions := [], tool_to_session := [], available_tools := [] }

/-- Provider 1's descriptor of a tool named "search". -/
def searchTool1 : ToolInfo :=
  { name := "search", description := "d1", inputSchema := "s1" }

/-- Provider 2's descriptor of a tool also named "search". -/
def searchTool2 : ToolInfo :=
  { name := "search", description := "d2", inputSchema := "s2" }

/- ===================== helper lemmas ==================================== -/

theorem allStrs_map_vStr : ∀ ss : List String, allStrs (ss.map PyValue.vStr) = some ss := by
  intro ss
  induction ss with
  | nil => rfl
  | cons s ss ih => simp [allStrs, asStr, ih]

theorem allStrs_eq_none : ∀ xs : List PyValue, (∃ x ∈ xs, asStr x = none) →
    allStrs xs = none := by
  intro xs
  induction xs with
  | nil => rintro ⟨x, hx, _⟩; cases hx
  | cons y ys ih =>
    rintro ⟨x, hx, hnone⟩
    rcases List.mem_cons.mp hx with h | h
    · subst h
      simp [allStrs, hnone]
    · cases hay : asStr y <;> simp [allStrs, hay, ih ⟨x, h, hnone⟩]

theorem dictGet_dictSet_self : ∀ (d : List (String × Session)) (k : String) (v : Session),
    dictGet (dictSet d k v) k = some v := by
  intro d k v
  induction d with
  | nil => simp [dictSet, dictGet]
  | cons kv d ih =>
    obtain ⟨k1, v1⟩ := kv
    by_cases h : k1 = k <;> simp [dictSet, dictGet, h, ih]

theorem runToolCalls_ok_shape (parse : JsonParse) (reg : Registry) :
    ∀ (tcs : List ToolCall) (msgs msgs' : List Message),
      runToolCalls parse reg tcs msgs = .ok msgs' →
      ∃ suffix, msgs' = msgs ++ suffix ∧ answersInOrder tcs suffix := by
  intro tcs
  induction tcs with
  | nil =>
    intro msgs msgs' h
    simp [runToolCalls] at h
    exact ⟨[], by simp [h], trivial⟩
  | cons tc rest ih =>
    intro msgs msgs' h
    rw [runToolCalls] at h
    split at h
    · exact Except.noConfusion h
    · split at h
      · exact Except.noConfusion h
      · next result _ =>
        obtain ⟨suffix, hs, ha⟩ := ih (msgs ++ [toolMessage tc.id result]) msgs' h
        refine ⟨toolMessage tc.id result :: suffix, ?_, ?_⟩
        · simp [hs]
        · exact ⟨rfl, rfl, ha⟩

theorem runToolCallsL6_ok_shape (parse : JsonParse) (routing : List (String × Session))
    (call : Session → String → ArgsMap → Except PyErr CallToolResult)
    (render : List ContentItem → String) :
    ∀ (tcs : List ToolCall) (msgs msgs' : List Message),
      runToolCallsL6 parse routing call render tcs msgs = .ok msgs' →
      ∃ suffix, msgs' = msgs ++ suffix ∧ answersInOrder tcs suffix := by
  intro tcs
  induction tcs with
  | nil =>
    intro msgs msgs' h
    simp [runToolCallsL6] at h
    exact ⟨[], by simp [h], trivial⟩
  | cons tc rest ih =>
    intro msgs msgs' h
    rw [runToolCallsL6] at h
    split at h
    · exact Except.noConfusion h
    · split at h
      · exact Except.noConfusion h
      · split at h
        · exact Except.noConfusion h
        · split at h
          · exact Except.noConfusion h
          · next r _ =>
            obtain ⟨suffix, hs, ha⟩ :=
              ih (msgs ++ [toolMessage tc.id (render r.content)]) msgs' h
            refine ⟨toolMessage tc.id (render r.content) :: suffix, ?_, ?_⟩
            · simp [hs]
            · exact ⟨rfl, rfl, ha⟩

theorem processDemoStep (rest : List LLMResponse) (msgs : List Message) :
    processQueryLoop modelJsonLoads demoReg (toolRespDemo :: rest) msgs =
      processQueryLoop modelJsonLoads demoReg rest (msgs ++ roundBlock) := by
  simp [processQueryLoop, toolRespDemo, tcDemo, runToolCalls, argsPayload, bracesLit,
    modelJsonLoads, execute_tool, demoReg, singleReg, okStrHandler, normalize_result,
    pyStr, roundBlock]

theorem processDemoLoop (n : Nat) :
    ∀ msgs, processQueryLoop modelJsonLoads demoReg (scriptDemo n) msgs =
      .answer (some "done") (msgs ++ roundsList n) := by
  induction n with
  | zero =>
    intro msgs
    simp [scriptDemo, processQueryLoop, finalRespDemo, roundsList]
  | succ n ih =>
    intro msgs
    have h1 : scriptDemo (n + 1) = toolRespDemo :: scriptDemo n := by
      simp [scriptDemo, List.replicate_succ]
    rw [h1, processDemoStep, ih]
    simp [roundsList]

theorem noAssistantContent_append (c : String) :
    ∀ l1 l2 : List Message, noAssistantContent c l1 → noAssistantContent c l2 →
      noAssistantContent c (l1 ++ l2) := by
  intro l1
  induction l1 with
  | nil => intro l2 _ h2; simpa using h2
  | cons m ms ih =>
    intro l2 h1 h2
    exact ⟨h1.1, ih l2 h1.2 h2⟩

theorem noAssistantContent_roundsList : ∀ n : Nat,
    noAssistantContent "done" (roundsList n) := by
  intro n
  induction n with
  | zero => trivial
  | succ n ih =>
    refine noAssistantContent_append "done" roundBlock (roundsList n) ?_ ih
    refine ⟨?_, ?_, trivial⟩
    · rintro ⟨_, hc⟩
      simp [roundBlock, assistantToolMsg] at hc
    · rintro ⟨hr, _⟩
      simp [roundBlock, toolMessage] at hr

/- ===================== claim theorems =================================== -/

/-- C1: for every assistant response with a non-empty sequence of tool-call
requests, `process_query` (L3 and L6 variants) appends exactly one tool-role
message per request, in emission order, each `tool_call_id` equal to its
request's `id` — stated for the per-turn tool batch: whenever the batch
completes (returns `ok`), the new transcript is the old one followed by a
suffix that answers the requests one-to-one, in order, with matching ids. -/
theorem c1_tool_messages_one_per_request :
    (∀ (parse : JsonParse) (reg : Registry) (tcs : List ToolCall)
        (msgs msgs' : List Message),
        runToolCalls parse reg tcs msgs = .ok msgs' →
        msgs'.take msgs.length = msgs ∧ answersInOrder tcs (msgs'.drop msgs.length)) ∧
    (∀ (parse : JsonParse) (routing : List (String × Session))
        (call : Session → String → ArgsMap → Except PyErr CallToolResult)
        (render : List ContentItem → String) (tcs : List ToolCall)
        (msgs msgs' : List Message),
        runToolCallsL6 parse routing call render tcs msgs = .ok msgs' →
        msgs'.take msgs.length = msgs ∧ answersInOrder tcs (msgs'.drop msgs.length)) := by
  constructor
  · intro parse reg tcs msgs msgs' h
    obtain ⟨suffix, hs, ha⟩ := runToolCalls_ok_shape parse reg tcs msgs msgs' h
    subst hs
    exact ⟨List.take_left msgs suffix, by rw [List.drop_left]; exact ha⟩
  · intro parse routing call render tcs msgs msgs' h
    obtain ⟨suffix, hs, ha⟩ := runToolCallsL6_ok_shape parse routing call render tcs msgs msgs' h
    subst hs
    exact ⟨List.take_left msgs suffix, by rw [List.drop_left]; exact ha⟩

/-- Witness for C1 at concrete inputs: a two-request batch in the L3 model
and a one-request batch in the L6 model. -/
theorem c1_tool_messages_one_per_request_witness :
    (([userMessage "q", toolMessage "call1" "r", toolMessage "call2" "r"] : List Message).take
        ([userMessage "q"] : List Message).length = [userMessage "q"] ∧
      answersInOrder [tcDemo, tcDemo2]
        (([userMessage "q", toolMessage "call1" "r", toolMessage "call2" "r"] : List Message).drop
          ([userMessage "q"] : List Message).length)) ∧
    (([userMessage "q", toolMessage "call1" "out"] : List Message).take
        ([userMessage "q"] : List Message).length = [userMessage "q"] ∧
      answersInOrder [tcDemo]
        (([userMessage "q", toolMessage "call1" "out"] : List Message).drop
          ([userMessage "q"] : List Message).length)) := by
  constructor
  · exact c1_tool_messages_one_per_request.1 modelJsonLoads demoReg [tcDemo, tcDemo2]
      [userMessage "q"] [userMessage "q", toolMessage "call1" "r", toolMessage "call2" "r"] rfl
  · exact c1_tool_messages_one_per_request.2 modelJsonLoads [("t", 1)]
      (fun _ _ _ => .ok { content := [] }) (fun _ => "out") [tcDemo]
      [userMessage "q"] [userMessage "q", toolMessage "call1" "out"] rfl

/-- C2 counterexample: L3's `execute_tool` has no try/except — a handler that
raises `ValueError("boom")` makes `execute_tool` propagate that exception
instead of returning a descriptive text result. -/
theorem c2_counterexample_execute_tool_propagates :
    execute_tool (mapping_tool_function raisingHandler stubHandler) "search_papers" [] =
      .error (.valueError "boom") ∧
    isOkResult (execute_tool (mapping_tool_function raisingHandler stubHandler)
      "search_papers" []) = false := by
  exact ⟨rfl, rfl⟩

/-- C2 amended: only the alstom client's `_execute_tool` catches handler
failures and converts them to the "Error executing tool ...: ..." text; L3's
`execute_tool` propagates any handler failure to its caller. -/
theorem c2_amended_agent_catches_l3_propagates :
    (∀ (call : McpCall) (name : String) (args : ArgsMap) (e : String),
        call name args = .error e →
        agent_execute_tool call name args = "Error executing tool " ++ name ++ ": " ++ e) ∧
    (∀ (reg : Registry) (f : ArgsMap → Except PyErr PyValue) (name : String)
        (args : ArgsMap) (e : PyErr),
        reg name = some f → f args = .error e →
        execute_tool reg name args = .error e) := by
  constructor
  · intro call name args e h
    simp [agent_execute_tool, h]
  · intro reg f name args e h1 h2
    simp [execute_tool, h1, h2]

/-- Witness for C2's amended statement at concrete inputs. -/
theorem c2_amended_agent_catches_l3_propagates_witness :
    agent_execute_tool callBoom "t" [] = "Error executing tool " ++ "t" ++ ": " ++ "boom" ∧
    execute_tool (mapping_tool_function stubHandler raisingHandler) "extract_info" [] =
      .error (.valueError "boom") := by
  constructor
  · exact c2_amended_agent_catches_l3_propagates.1 callBoom "t" [] "boom" rfl
  · exact c2_amended_agent_catches_l3_propagates.2
      (mapping_tool_function stubHandler raisingHandler) raisingHandler
      "extract_info" [] (.valueError "boom") rfl rfl

/-- C3 counterexample: an unregistered tool name makes L3's `execute_tool`
raise `KeyError` (the dict subscript) and the server's `call_tool` raise
`ValueError("Unknown tool: ...")` — neither returns a text result. -/
theorem c3_counterexample_unknown_tool_raises :
    execute_tool (mapping_tool_function stubHandler stubHandler) "calc" [] =
      .error (.keyError "calc") ∧
    isOkResult (execute_tool (mapping_tool_function stubHandler stubHandler) "calc" []) =
      false ∧
    server_call_tool implStub "calc" [] = .error ("Unknown tool: calc") := by
  exact ⟨rfl, rfl, rfl⟩

/-- C3 amended: invoking the executor with an unregistered name raises an
error naming the tool (`KeyError` in L3, `ValueError "Unknown tool: ..."` in
the train-production server), and that error propagates to the caller rather
than being returned as a text result. -/
theorem c3_amended_unknown_tool_error_propagates :
    (∀ (sp ei : ArgsMap → Except PyErr PyValue) (name : String) (args : ArgsMap),
        name ≠ "search_papers" → name ≠ "extract_info" →
        execute_tool (mapping_tool_function sp ei) name args = .error (.keyError name)) ∧
    (∀ (impl : String → ArgsMap → List ContentItem) (name : String) (args : ArgsMap),
        name ∉ serverToolNames →
        server_call_tool impl name args = .error ("Unknown tool: " ++ name)) := by
  constructor
  · intro sp ei name args h1 h2
    simp [execute_tool, mapping_tool_function, h1, h2]
  · intro impl name args h
    simp only [serverToolNames, List.mem_cons, List.not_mem_nil, or_false] at h
    push_neg at h
    obtain ⟨h1, h2, h3, h4, h5, h6⟩ := h
    simp [server_call_tool, h1, h2, h3, h4, h5, h6]

/-- Witness for C3's amended statement at a concrete unregistered name. -/
theorem c3_amended_unknown_tool_error_propagates_witness :
    execute_tool (mapping_tool_function stubHandler stubHandler) "frob" [] =
      .error (.keyError "frob") ∧
    server_call_tool implStub "frob" [] = .error ("Unknown tool: " ++ "frob") := by
  constructor
  · exact c3_amended_unknown_tool_error_propagates.1 stubHandler stubHandler "frob" []
      (by decide) (by decide)
  · exact c3_amended_unknown_tool_error_propagates.2 implStub "frob" [] (by decide)

/-- C4 counterexample: a handler returning the EMPTY list makes
`execute_tool` return the empty string (the comma join of no elements), not
the fixed placeholder — the placeholder is produced only for `None`. -/
theorem c4_counterexample_empty_list_not_placeholder :
    execute_tool (singleReg "t" (fun _ => .ok (.vList []))) "t" [] = .ok "" ∧
    placeholderText ≠ "" := by
  exact ⟨rfl, by decide⟩

/-- C4 amended: `execute_tool` normalizes a successful handler value by the
chain of `normalize_result`: `None` (absent) → the fixed placeholder; a list
whose elements are all strings → the comma join (so the empty list yields the
empty string, not the placeholder); a list containing a non-string →
`TypeError` from the join; a dict → its pretty-printed JSON form; a string or
int → its plain text. -/
theorem c4_amended_normalization (reg : Registry) (name : String) (args : ArgsMap)
    (f : ArgsMap → Except PyErr PyValue) (r : PyValue)
    (h1 : reg name = some f) (h2 : f args = .ok r) :
    execute_tool reg name args = normalize_result r ∧ normalizeSpec := by
  constructor
  · simp [execute_tool, h1, h2]
  · unfold normalizeSpec
    refine ⟨rfl, ?_, ?_, fun kvs => rfl, fun s => rfl, fun n => rfl⟩
    · intro ss
      simp [normalize_result, pyJoin, allStrs_map_vStr]
    · intro xs hx
      simp [normalize_result, pyJoin, allStrs_eq_none xs hx]

/-- Witness for C4's amended statement at a concrete registry and handler. -/
theorem c4_amended_normalization_witness :
    execute_tool demoReg "t" [] = normalize_result (.vStr "r") ∧ normalizeSpec := by
  exact c4_amended_normalization demoReg "t" [] okStrHandler (.vStr "r") rfl rfl

/-- C5 counterexample: a tool call whose raw arguments are "oops" makes the
L3 loop raise `json.JSONDecodeError` — the turn aborts with a propagated
exception and no tool-result message is produced. -/
theorem c5_counterexample_malformed_args_crash :
    process_query modelJsonLoads demoReg [badResp] "q" =
      .raised (.jsonDecodeError "oops") := by
  rfl

/-- C5 amended: a tool-call whose raw arguments are not parseable makes
`json.loads` raise; the exception propagates out of `process_query` (L3) and
out of `chat` (alstom) — the turn aborts without a tool-result message, and
only the outer interactive loop catches the error so the next query can
proceed. -/
theorem c5_amended_malformed_args_propagate :
    (∀ (parse : JsonParse) (reg : Registry) (r : LLMResponse) (rest : List LLMResponse)
        (msgs : List Message) (tc : ToolCall) (tcs : List ToolCall),
        r.tool_calls = tc :: tcs → parse (argsPayload tc.arguments) = none →
        processQueryLoop parse reg (r :: rest) msgs =
          .raised (.jsonDecodeError (argsPayload tc.arguments))) ∧
    (∀ (parse : JsonParse) (call : McpCall) (m : LLMResponse) (tc : ToolCall)
        (tcs : List ToolCall) (s : String) (resp2 : Except PyErr (Option String))
        (hist : List Message) (q : String),
        m.tool_calls = tc :: tcs → tc.arguments = some s → parse s = none →
        (agentChat parse call (.ok m) resp2 hist q).2 = .error (.jsonDecodeError s)) := by
  constructor
  · intro parse reg r rest msgs tc tcs hr hp
    simp [processQueryLoop, hr, runToolCalls, hp]
  · intro parse call m tc tcs s resp2 hist q hm harg hp
    simp [agentChat, hm, agentToolLoop, harg, hp]

/-- Witness for C5's amended statement at concrete malformed inputs. -/
theorem c5_amended_malformed_args_propagate_witness :
    processQueryLoop modelJsonLoads demoReg [badResp] [userMessage "q"] =
      .raised (.jsonDecodeError (argsPayload badTc.arguments)) ∧
    (agentChat modelJsonLoads callStub (.ok badResp) (.ok none) [] "q").2 =
      .error (.jsonDecodeError "oops") := by
  constructor
  · exact c5_amended_malformed_args_propagate.1 modelJsonLoads demoReg badResp [] [userMessage "q"]
      badTc [] rfl rfl
  · exact c5_amended_malformed_args_propagate.2 modelJsonLoads callStub badResp badTc []
      "oops" (.ok none) [] "q" rfl rfl rfl

/-- C6 counterexample: two providers each publishing a tool named "search"
connect without any failure; the routing dict silently maps "search" to the
SECOND provider's session (last registration wins) and both descriptors are
appended to `available_tools` — no `DuplicateToolName` error exists in the
code. -/
theorem c6_counterexample_silent_last_wins :
    connect_to_servers [.success 1 [searchTool1], .success 2 [searchTool2]] st0 =
      { sessions := [1, 2],
        tool_to_session := [("search", 2)],
        available_tools := [searchTool1, searchTool2] } ∧
    dictGet (connect_to_servers [.success 1 [searchTool1], .success 2 [searchTool2]]
        st0).tool_to_session "search" = some 2 := by
  exact ⟨rfl, rfl⟩

/-- C6 amended: when two connected providers publish the same tool name, the
connect sequence does not fail: the routing table silently binds the name to
the most recently connected provider's session (undocumented
last-registration-wins) while both descriptors are kept in
`available_tools`. -/
theorem c6_amended_last_registration_wins (st : BotState) (s1 s2 : Session)
    (t1 t2 : ToolInfo) (h : t1.name = t2.name) :
    dictGet (connect_to_server (.success s2 [t2])
        (connect_to_server (.success s1 [t1]) st)).tool_to_session t1.name = some s2 ∧
    (connect_to_server (.success s2 [t2])
        (connect_to_server (.success s1 [t1]) st)).available_tools =
      st.available_tools ++ [t1] ++ [t2] ∧
    (connect_to_server (.success s2 [t2])
        (connect_to_server (.success s1 [t1]) st)).sessions =
      st.sessions ++ [s1] ++ [s2] := by
  refine ⟨?_, ?_, ?_⟩
  · rw [h]
    simp [connect_to_server, dictGet_dictSet_self]
  · simp [connect_to_server]
  · simp [connect_to_server]

/-- Witness for C6's amended statement at the concrete "search" collision. -/
theorem c6_amended_last_registration_wins_witness :
    dictGet (connect_to_server (.success 2 [searchTool2])
        (connect_to_server (.success 1 [searchTool1]) st0)).tool_to_session
      searchTool1.name = some 2 ∧
    (connect_to_server (.success 2 [searchTool2])
        (connect_to_server (.success 1 [searchTool1]) st0)).available_tools =
      st0.available_tools ++ [searchTool1] ++ [searchTool2] ∧
    (connect_to_server (.success 2 [searchTool2])
        (connect_to_server (.success 1 [searchTool1]) st0)).sessions =
      st0.sessions ++ [1] ++ [2] := by
  exact c6_amended_last_registration_wins st0 1 2 searchTool1 searchTool2 rfl

/-- C7: a provider connection failure is fatal only to that provider: the
loop over servers behaves as if the failing provider were absent, a failure
changes nothing in the registry state, and even a failure after the session
was entered leaves the routing table and descriptor list of
already-connected providers untouched (their tools remain callable). -/
theorem c7_provider_failure_isolated :
    (∀ (pre post : List ConnectOutcome) (e : String) (st : BotState),
        connect_to_servers (pre ++ .failEarly e :: post) st =
          connect_to_servers (pre ++ post) st) ∧
    (∀ (e : String) (st : BotState), connect_to_server (.failEarly e) st = st) ∧
    (∀ (s : Session) (e : String) (st : BotState),
        (connect_to_server (.failAfterSession s e) st).tool_to_session =
          st.tool_to_session ∧
        (connect_to_server (.failAfterSession s e) st).available_tools =
          st.available_tools) := by
  refine ⟨?_, fun e st => rfl, fun s e st => ⟨rfl, rfl⟩⟩
  intro pre post e st
  simp [connect_to_servers, List.foldl_append, connect_to_server]

/-- C8 counterexample: in the alstom client a malformed tool-call payload
aborts `chat` mid-turn, but the retained `conversation_history` (empty before
the turn) now holds the user message AND the assistant message whose tool
call was never answered: the transcript is not restored and a dangling
unanswered tool call remains. -/
theorem c8_counterexample_dangling_tool_call :
    agentChat modelJsonLoads callStub (.ok badResp) (.ok none) [] "q" =
      ([userMessage "q", agentAssistantMsg none [badTc]],
        .error (.jsonDecodeError "oops")) ∧
    (agentAssistantMsg none [badTc]).tool_calls ≠ [] ∧
    (([userMessage "q", agentAssistantMsg none [badTc]] : List Message).map
        Message.tool_call_id) = [none, none] := by
  refine ⟨rfl, by decide, rfl⟩

/-- C8 amended: a fatal mid-turn failure leaves the partially updated
retained history rather than restoring it: a failing first LLM request leaves
the appended user message, and a malformed tool-call payload leaves the user
message plus the assistant tool-call message — a dangling unanswered tool
call.  (L3's transcript is per-query local and discarded, so nothing is
retained there either way.) -/
theorem c8_amended_partial_history_retained :
    (∀ (parse : JsonParse) (call : McpCall) (e : PyErr)
        (resp2 : Except PyErr (Option String)) (hist : List Message) (q : String),
        agentChat parse call (.error e) resp2 hist q = (hist ++ [userMessage q], .error e)) ∧
    (∀ (parse : JsonParse) (call : McpCall) (m : LLMResponse) (tc : ToolCall)
        (tcs : List ToolCall) (s : String) (resp2 : Except PyErr (Option String))
        (hist : List Message) (q : String),
        m.tool_calls = tc :: tcs → tc.arguments = some s → parse s = none →
        agentChat parse call (.ok m) resp2 hist q =
          (hist ++ [userMessage q, agentAssistantMsg m.content (tc :: tcs)],
            .error (.jsonDecodeError s))) := by
  constructor
  · intro parse call e resp2 hist q
    rfl
  · intro parse call m tc tcs s resp2 hist q hm harg hp
    simp [agentChat, hm, agentToolLoop, harg, hp]

/-- Witness for C8's amended statement at a concrete malformed turn over a
non-empty retained history. -/
theorem c8_amended_partial_history_retained_witness :
    agentChat modelJsonLoads callBoom (.ok badResp) (.ok (some "x")) [userMessage "p"] "q" =
      ([userMessage "p"] ++ [userMessage "q", agentAssistantMsg none [badTc]],
        .error (.jsonDecodeError "oops")) := by
  exact c8_amended_partial_history_retained.2 modelJsonLoads callBoom badResp badTc []
    "oops" (.ok (some "x")) [userMessage "p"] "q" rfl rfl rfl

/-- C9 counterexample: a first response with no tool calls makes L3's
`process_query` return its content, but the transcript still holds only the
user message — the final content is NOT appended as an assistant message. -/
theorem c9_counterexample_final_not_appended :
    process_query modelJsonLoads demoReg [finalRespDemo] "q" =
      .answer (some "done") [userMessage "q"] ∧
    ([userMessage "q"] : List Message).map Message.role = [Role.user] := by
  exact ⟨rfl, rfl⟩

/-- C9 amended: L3's `process_query` loops with no iteration bound —
tool-requesting responses can occur on every iteration — and when a response
without tool calls arrives its content is returned to the caller but NOT
appended to the transcript; the alstom `chat`, by contrast, performs at most
one tool round (the follow-up request is issued without tools) and appends
the follow-up content as the final assistant message. -/
theorem c9_amended_unbounded_loop_final_returned :
    (∀ n : Nat,
        process_query modelJsonLoads demoReg (scriptDemo n) "q" =
          .answer (some "done") (userMessage "q" :: roundsList n) ∧
        noAssistantContent "done" (userMessage "q" :: roundsList n)) ∧
    (∀ (call : McpCall) (hist : List Message) (q : String) (c : Option String),
        agentChat modelJsonLoads call
            (.ok { content := none, tool_calls := [tcDemo] }) (.ok c) hist q =
          (hist ++ [userMessage q, agentAssistantMsg none [tcDemo],
            toolMessage "call1" (agent_execute_tool call "t" []),
            agentAssistantMsg c []], .ok c)) := by
  constructor
  · intro n
    constructor
    · have h := processDemoLoop n [userMessage "q"]
      simpa [process_query] using h
    · refine ⟨?_, noAssistantContent_roundsList n⟩
      rintro ⟨hrole, _⟩
      simp [userMessage] at hrole
  · intro call hist q c
    simp [agentChat, agentToolLoop, tcDemo, modelJsonLoads, bracesLit,
      agent_execute_tool]

/-- C10: a tool call whose raw arguments payload is absent (`None`) or the
empty string is treated by L3's `process_query` as the empty JSON object
(`or "\x7b\x7d"` before `json.loads`), so the tool is invoked with the empty
argument mapping instead of raising a parse error. -/
theorem c10_empty_arguments_default_braces :
    ∀ (parse : JsonParse) (reg : Registry) (cid nm : String)
      (rest : List ToolCall) (msgs : List Message),
      parse bracesLit = some [] →
      argsPayload none = bracesLit ∧
      argsPayload (some "") = bracesLit ∧
      runToolCalls parse reg ({ id := cid, name := nm, arguments := none } :: rest) msgs =
        (match execute_tool reg nm [] with
          | .error e => .error e
          | .ok result => runToolCalls parse reg rest (msgs ++ [toolMessage cid result])) ∧
      runToolCalls parse reg ({ id := cid, name := nm, arguments := some "" } :: rest) msgs =
        (match execute_tool reg nm [] with
          | .error e => .error e
          | .ok result => runToolCalls parse reg rest (msgs ++ [toolMessage cid result])) := by
  intro parse reg cid nm rest msgs hp
  refine ⟨rfl, rfl, ?_, ?_⟩
  · rw [runToolCalls]
    simp [argsPayload, hp]
  · rw [runToolCalls]
    simp [argsPayload, hp]

/-- Witness for C10 at the concrete model of `json.loads`. -/
theorem c10_empty_arguments_default_braces_witness :
    argsPayload none = bracesLit ∧
    argsPayload (some "") = bracesLit ∧
    runToolCalls modelJsonLoads demoReg [{ id := "c1", name := "t", arguments := none }] [] =
      (match execute_tool demoReg "t" [] with
        | .error e => .error e
        | .ok result => runToolCalls modelJsonLoads demoReg [] ([] ++ [toolMessage "c1" result])) ∧
    runToolCalls modelJsonLoads demoReg [{ id := "c1", name := "t", arguments := some "" }] [] =
      (match execute_tool demoReg "t" [] with
        | .error e => .error e
        | .ok result => runToolCalls modelJsonLoads demoReg [] ([] ++ [toolMessage "c1" result])) := by
  exact c10_empty_arguments_default_braces modelJsonLoads demoReg "c1" "t" [] [] rfl

end Spec2Proof
